import Mathlib

/-!
Verification of the phue/phue2 Hue-bridge client library.

This file shallowly embeds the parts of the library that the checked
claims are about:

* `Bridge.register_app` and `Bridge.connect` (src/phue2/bridge.py),
  modelled as pure functions over the POST response, the credential
  file contents, and the discovery result;
* `Bridge.set_light` (src/phue2/bridge.py), modelled as a pure loop
  over a transport function, producing the list of issued requests,
  the responses, the skipped names and the logged warnings;
* `Light.on` / `Light._set` / the `Light.name` setter
  (src/phue/light.py), modelled as state transformers over the
  mirror's cached fields that also emit the write events they issue;
* `_SensorDataWrapper.__setitem__` together with
  `Bridge.set_sensor_content` (src/phue/sensor.py, src/phue2/bridge.py);
* `Scene.__init__` and `Bridge.run_scene`
  (src/phue2/scene.py, src/phue2/bridge.py).

Python dictionaries are modelled as association lists that keep the
insertion order of the keys; keys in a Python dict are unique, and
the operations below preserve that uniqueness.
-/

/-- Lookup in an association list (Python `d[k]` / `k in d`):
first binding of the key wins. -/
def alistLookup {α : Type} (d : List (String × α)) (k : String) : Option α :=
  (d.find? (fun p => p.1 == k)).map (fun p => p.2)

/-- Assignment `d[k] = v` on a Python dict: updates the binding in place
when the key is present, otherwise appends it (insertion order). -/
def alistSet {α : Type} (d : List (String × α)) (k : String) (v : α) :
    List (String × α) :=
  match d with
  | [] => [(k, v)]
  | p :: ps => if p.1 == k then (k, v) :: ps else p :: alistSet ps k v

/-- Deletion `del d[k]` on a Python dict (the key is assumed present by
the caller when Python would not raise; removing every binding of the
key agrees with the unique-key invariant of Python dicts). -/
def alistDel {α : Type} (d : List (String × α)) (k : String) :
    List (String × α) :=
  d.filter (fun p => !(p.1 == k))

/-- Python's substring test (the operator `in` on strings). -/
def strContains (s pat : String) : Bool :=
  (List.range (s.length + 1)).any (fun i => pat.data.isPrefixOf (s.data.drop i))

theorem alistLookup_set_self {α : Type} (d : List (String × α)) (k : String) (v : α) :
    alistLookup (alistSet d k v) k = some v := by
  induction d with
  | nil => simp [alistLookup, alistSet, List.find?]
  | cons q qs ih =>
    by_cases hq : q.1 == k
    · simp [alistLookup, alistSet, hq, List.find?]
    · simp only [alistSet, hq, if_false]
      simpa [alistLookup, List.find?, hq] using ih

theorem alistLookup_del_self {α : Type} (d : List (String × α)) (k : String) :
    alistLookup (alistDel d k) k = none := by
  have h : (alistDel d k).find? (fun p => p.1 == k) = none := by
    rw [List.find?_eq_none]
    intro p hp
    have := List.of_mem_filter hp
    simpa using this
  simp [alistLookup, h]

/-!
## Registration handshake — `Bridge.register_app` (src/src/phue2/bridge.py, 207-253)

The POST response is a JSON array of objects; each object is kept as its
ordered key/value pairs.  The Python loop is

    for line in response:
        for key in line:
            if "success" in key: ...  (writes the config file, sets the
                                       username, returns)
            if "error" in key:  ...  (raises on type 101 or type 7,
                                       otherwise keeps scanning)

where the two tests are substring tests on the key.
-/

/-- An error record of a registration response entry:
the object under its "error" key, holding a numeric type
and a description. -/
structure RegError where
  type : Int
  description : String
deriving DecidableEq

/-- A JSON value sitting under a key of a registration response entry. -/
inductive RegVal where
  | obj (fields : List (String × String))
  | err (e : RegError)
  | otherVal
deriving DecidableEq

/-- One entry of the registration POST response, as ordered key/value pairs. -/
abbrev RegLine := List (String × RegVal)

/-- The credential-store file contents: a JSON object mapping bridge
addresses to credential records (`{address: {"username": ..., ...}}`). -/
abbrev CredFile := List (String × List (String × String))

/-- The message of the type-101 `PhueRegistrationException` in `register_app`. -/
def linkButtonMsg : String :=
  "The link button has not been pressed in the last 30 seconds. Please press the button on the bridge and try again."

/-- The message of the type-7 `PhueException` in `register_app`. -/
def unknownUsernameMsg : String :=
  "Unknown username"

/-- The message of the `PhueException` raised when `register_app` is called
without an IP address. -/
def registerNoIpMsg : String :=
  "Cannot register without an IP address. Specify the bridge IP: bridge = phue.Bridge(ip='192.168.x.x')"

/-- How `register_app` ends: an exception propagates, or the method returns,
on success carrying the new username together with the credential-file
contents it wrote. -/
inductive RegOutcome where
  | raisedReg (code : Int) (msg : String)
  | raisedPhue (code : Int) (msg : String)
  | raisedKeyError
  | returned (found : Option (String × CredFile))
deriving DecidableEq

/-- The inner loop of `register_app` over the keys of one response entry
(`for key in line`), in key order.  Indexing the entry (`line["success"]`,
`line["error"]["type"]`) on a mis-shaped entry raises a lookup error in
Python; `none` means the loop over this entry fell through without
returning or raising. -/
def regLineScan (ip : String) (line : RegLine) :
    List (String × RegVal) → Option RegOutcome
  | [] => none
  | (k, _) :: rest =>
    if strContains k "success" then
      -- the success branch writes {self.ip: line["success"]} to the config
      -- file, sets self._username = line["success"]["username"] and returns
      some (match alistLookup line "success" with
        | some (RegVal.obj fields) =>
          match alistLookup fields "username" with
          | some u => RegOutcome.returned (some (u, [(ip, fields)]))
          | none => RegOutcome.raisedKeyError
        | _ => RegOutcome.raisedKeyError)
    else if strContains k "error" then
      match alistLookup line "error" with
      | some (RegVal.err e) =>
        if e.type = 101 then some (RegOutcome.raisedReg 101 linkButtonMsg)
        else if e.type = 7 then some (RegOutcome.raisedPhue 7 unknownUsernameMsg)
        else regLineScan ip line rest
      | _ => some RegOutcome.raisedKeyError
    else regLineScan ip line rest

/-- The outer loop of `register_app` over the response entries; falling off
the end of the loop returns `None` with the username untouched. -/
def regLines (ip : String) : List RegLine → RegOutcome
  | [] => RegOutcome.returned none
  | line :: rest =>
    match regLineScan ip line line with
    | some o => o
    | none => regLines ip rest

/-- `Bridge.register_app`, as a function of the session's IP and the POST
response (the POST itself is the external transport; a network-level
failure of the POST raises and is outside the returning paths modelled
here). -/
def register_app (ip : Option String) (response : List RegLine) : RegOutcome :=
  match ip with
  | none => RegOutcome.raisedPhue (-1) registerNoIpMsg
  | some a => regLines a response

/-- The credential-store file after `register_app`: on the success path the
file is opened with mode "w" and a one-entry object is written, so the
previous contents are discarded entirely; on every other path the file is
untouched. -/
def fileAfterRegister (prev : Option CredFile) (ip : Option String)
    (response : List RegLine) : Option CredFile :=
  match register_app ip response with
  | RegOutcome.returned (some (_, f)) => some f
  | _ => prev

/-- A response entry holding exactly one "success" key with a record. -/
def successLine (fields : List (String × String)) : RegLine :=
  [("success", RegVal.obj fields)]

/-- A response entry holding exactly one "error" key with a typed record. -/
def errorLine (t : Int) (d : String) : RegLine :=
  [("error", RegVal.err { type := t, description := d })]

/-!
## Connection establishment — `Bridge.connect` (src/src/phue2/bridge.py, 255-310)

`connect` is modelled as a pure function of the initial `ip`/`username`
and of an environment holding what the outside world answers: the result
of reading the config file, the result of the nupnp discovery
(`get_ip_address` returns `None` both on a network error and on an empty
result list), and the registration POST response.
-/

/-- What opening and parsing the config file yields: its parsed JSON
object, `FileNotFoundError`, `json.JSONDecodeError`, or any other
exception while opening it. -/
inductive ConfigRead where
  | found (cfg : CredFile)
  | notFound
  | invalidJson
  | otherError
deriving DecidableEq

/-- The external answers `connect` consumes. -/
structure ConnEnv where
  configRead : ConfigRead
  discovery : Option String
  regResponse : List RegLine
deriving DecidableEq

/-- An exception escaping `connect`. -/
inductive ConnectRaised where
  | phue (code : Int) (msg : String)
  | registration (code : Int) (msg : String)
  | lookupFailed
deriving DecidableEq

/-- How `connect` ends: an exception, or a normal return carrying the
session's final address and credential and the credential-file write
performed by a successful registration (if any). -/
inductive ConnectResult where
  | raised (e : ConnectRaised)
  | ok (ip : Option String) (username : Option String) (fileWrite : Option CredFile)
deriving DecidableEq

/-- Message of the `PhueException` raised when discovery finds no bridge. -/
def discoveryFailMsg : String :=
  "Could not find bridge IP address. Please specify it manually:\nbridge = phue.Bridge(ip='192.168.x.x')"

/-- Message of the `PhueException` raised when the config file cannot be
loaded and no IP address was specified. -/
def configLoadFailMsg : String :=
  "Could not load config and no IP address specified. Please initialize with an IP address: phue.Bridge(ip='192.168.x.x')"

/-- The paths of `connect` that call `self.register_app()` and then fall
off the end of `connect`: an exception from `register_app` propagates, a
plain return leaves the username as `register_app` left it. -/
def connectRegister (ip1 u0 : Option String) (response : List RegLine) :
    ConnectResult :=
  match register_app ip1 response with
  | RegOutcome.raisedReg c m => ConnectResult.raised (ConnectRaised.registration c m)
  | RegOutcome.raisedPhue c m => ConnectResult.raised (ConnectRaised.phue c m)
  | RegOutcome.raisedKeyError => ConnectResult.raised ConnectRaised.lookupFailed
  | RegOutcome.returned none => ConnectResult.ok ip1 u0 none
  | RegOutcome.returned (some (u, f)) => ConnectResult.ok ip1 (some u) (some f)

/-- The username half of the config-file branch of `connect`, entered with
the address already resolved to `a` (and `self.ip = some a`).  A
`KeyError` from `config[self.ip]` or `config[self.ip]["username"]` lands
in the generic `except Exception` handler, which sees `self.ip` set and
calls `register_app`. -/
def connectUsernameFromConfig (u0 : Option String) (cfg : CredFile) (a : String)
    (response : List RegLine) : ConnectResult :=
  match u0 with
  | some u => ConnectResult.ok (some a) (some u) none
  | none =>
    match alistLookup cfg a with
    | none => connectRegister (some a) none response
    | some rec =>
      match alistLookup rec "username" with
      | none => connectRegister (some a) none response
      | some u => ConnectResult.ok (some a) (some u) none

/-- The config-file branch of `connect` (`with open(...)` succeeded and the
JSON parsed).  With no address yet, `list(config.keys())[0]` on an empty
object raises `IndexError`, and the generic handler sees `self.ip` still
`None` and raises a `PhueException`. -/
def connectFromConfig (ip0 u0 : Option String) (cfg : CredFile)
    (response : List RegLine) : ConnectResult :=
  match ip0 with
  | none =>
    match cfg with
    | [] => ConnectResult.raised (ConnectRaised.phue (-1) configLoadFailMsg)
    | (a, _) :: _ => connectUsernameFromConfig u0 cfg a response
  | some a => connectUsernameFromConfig u0 cfg a response

/-- `Bridge.connect`. -/
def connect (ip0 u0 : Option String) (env : ConnEnv) : ConnectResult :=
  match ip0, u0 with
  | some i, some u => ConnectResult.ok (some i) (some u) none
  | _, _ =>
    match env.configRead with
    | ConfigRead.found cfg => connectFromConfig ip0 u0 cfg env.regResponse
    | ConfigRead.notFound =>
      match ip0 with
      | none =>
        match env.discovery with
        | none => ConnectResult.raised (ConnectRaised.phue (-1) discoveryFailMsg)
        | some a => connectRegister (some a) u0 env.regResponse
      | some a => connectRegister (some a) u0 env.regResponse
    | ConfigRead.invalidJson => connectRegister ip0 u0 env.regResponse
    | ConfigRead.otherError =>
      match ip0 with
      | none => ConnectResult.raised (ConnectRaised.phue (-1) configLoadFailMsg)
      | some a => connectRegister (some a) u0 env.regResponse

theorem connectRegister_ok (ip1 u0 : Option String) (response : List RegLine)
    (ipR uR : Option String) (fw : Option CredFile)
    (h : connectRegister ip1 u0 response = ConnectResult.ok ipR uR fw) :
    ipR = ip1 ∧
      (uR = none →
        u0 = none ∧ register_app ip1 response = RegOutcome.returned none) := by
  unfold connectRegister at h
  split at h
  · exact absurd h (by simp)
  · exact absurd h (by simp)
  · exact absurd h (by simp)
  · rename_i heq
    simp only [ConnectResult.ok.injEq] at h
    exact ⟨h.1.symm, fun hu => ⟨h.2.1.trans hu, heq⟩⟩
  · simp only [ConnectResult.ok.injEq] at h
    refine ⟨h.1.symm, fun hu => ?_⟩
    rw [← h.2.1] at hu
    simp at hu

theorem connectUsernameFromConfig_ok (u0 : Option String) (cfg : CredFile)
    (a : String) (response : List RegLine)
    (ipR uR : Option String) (fw : Option CredFile)
    (h : connectUsernameFromConfig u0 cfg a response = ConnectResult.ok ipR uR fw) :
    ipR = some a ∧
      (uR = none →
        u0 = none ∧ register_app (some a) response = RegOutcome.returned none) := by
  unfold connectUsernameFromConfig at h
  split at h
  · simp only [ConnectResult.ok.injEq] at h
    refine ⟨h.1.symm, fun hu => ?_⟩
    rw [← h.2.1] at hu
    simp at hu
  · split at h
    · exact connectRegister_ok _ _ _ _ _ _ h
    · split at h
      · exact connectRegister_ok _ _ _ _ _ _ h
      · simp only [ConnectResult.ok.injEq] at h
        refine ⟨h.1.symm, fun hu => ?_⟩
        rw [← h.2.1] at hu
        simp at hu

/-- Claim C1 (amended): whenever `connect()` returns without raising, the
session's network address is set; the credential is also set, except on the
path where registration was attempted and the POST response contained no
success entry (and no error of type 101 or 7), on which `connect()` returns
with the credential still unset. -/
theorem connect_ok_invariant (ip0 u0 : Option String) (env : ConnEnv)
    (ipR uR : Option String) (fw : Option CredFile)
    (h : connect ip0 u0 env = ConnectResult.ok ipR uR fw) :
    ipR.isSome = true ∧
      (uR = none →
        u0 = none ∧ register_app ipR env.regResponse = RegOutcome.returned none) := by
  unfold connect at h
  split at h
  · simp only [ConnectResult.ok.injEq] at h
    refine ⟨by rw [← h.1]; rfl, fun hu => ?_⟩
    rw [← h.2.1] at hu
    simp at hu
  · split at h
    · -- config file parsed
      unfold connectFromConfig at h
      split at h
      · split at h
        · exact absurd h (by simp)
        · have := connectUsernameFromConfig_ok _ _ _ _ _ _ _ h
          exact ⟨by rw [this.1]; rfl, by rw [this.1]; exact this.2⟩
      · have := connectUsernameFromConfig_ok _ _ _ _ _ _ _ h
        exact ⟨by rw [this.1]; rfl, by rw [this.1]; exact this.2⟩
    · -- FileNotFoundError
      split at h
      · split at h
        · exact absurd h (by simp)
        · have := connectRegister_ok _ _ _ _ _ _ h
          exact ⟨by rw [this.1]; rfl, by rw [this.1]; exact this.2⟩
      · have := connectRegister_ok _ _ _ _ _ _ h
        exact ⟨by rw [this.1]; rfl, by rw [this.1]; exact this.2⟩
    · -- invalid JSON: register_app is called with the original (possibly
      -- absent) ip, and raises when it is absent
      have := connectRegister_ok _ _ _ _ _ _ h
      rcases this with ⟨hip, hrest⟩
      subst hip
      refine ⟨?_, hrest⟩
      cases hr : ipR with
      | some a => rfl
      | none =>
        rw [hr] at h
        rw [show connectRegister none u0 env.regResponse
            = ConnectResult.raised (ConnectRaised.phue (-1) registerNoIpMsg) from rfl] at h
        exact absurd h (by simp)
    · -- any other error opening the config file
      split at h
      · exact absurd h (by simp)
      · have := connectRegister_ok _ _ _ _ _ _ h
        exact ⟨by rw [this.1]; rfl, by rw [this.1]; exact this.2⟩

/-- Claim C1 counterexample: with an explicit address, no credential and no
config file, a registration POST response with no success entry (here the
empty list) makes `connect()` return without raising while the username is
still unset — the claimed invariant fails on this path. -/
theorem connect_no_success_counterexample :
    connect (some "10.0.0.1") none
        { configRead := ConfigRead.notFound, discovery := none, regResponse := [] }
      = ConnectResult.ok (some "10.0.0.1") none none := by
  rfl

/-- Witness for `connect_ok_invariant` at the concrete no-success input. -/
theorem connect_ok_invariant_witness :
    (some "10.0.0.1" : Option String).isSome = true ∧
      ((none : Option String) = none →
        (none : Option String) = none ∧
          register_app (some "10.0.0.1") [] = RegOutcome.returned none) :=
  connect_ok_invariant (some "10.0.0.1") none
    { configRead := ConfigRead.notFound, discovery := none, regResponse := [] }
    (some "10.0.0.1") none none rfl

/-- Claim C2 (amended): in the registration handshake, the first error
entry with type 101 raises the distinguished retriable registration error;
the first error entry with type 7 raises the generic bridge error with
code 7 and the fixed message "Unknown username" (the response's
description is not carried); an error entry with any other code raises
nothing and scanning continues with the remaining entries. -/
theorem register_app_error_types (ip : String) (code : Int) (desc : String)
    (rest : List RegLine) :
    (code = 101 →
      register_app (some ip) (errorLine code desc :: rest)
        = RegOutcome.raisedReg 101 linkButtonMsg) ∧
    (code = 7 →
      register_app (some ip) (errorLine code desc :: rest)
        = RegOutcome.raisedPhue 7 unknownUsernameMsg) ∧
    (code ≠ 101 → code ≠ 7 →
      register_app (some ip) (errorLine code desc :: rest)
        = register_app (some ip) rest) := by
  have hks : strContains "error" "success" = false := by decide
  have hke : strContains "error" "error" = true := by decide
  refine ⟨?_, ?_, ?_⟩
  · intro h
    subst h
    simp [register_app, regLines, regLineScan, errorLine, alistLookup,
      List.find?, hks, hke]
  · intro h
    subst h
    simp [register_app, regLines, regLineScan, errorLine, alistLookup,
      List.find?, hks, hke]
  · intro h1 h2
    simp [register_app, regLines, regLineScan, errorLine, alistLookup,
      List.find?, hks, hke, h1, h2]

/-- Claim C2 counterexample: an error entry with type 6 raises nothing at
all — the handshake returns `None` — where the claim says any error code
other than 101 raises a generic bridge error carrying the code and the
response's description; and for type 7 the raised error carries the fixed
message "Unknown username", not the response's description. -/
theorem register_app_other_code_counterexample :
    register_app (some "10.0.0.1") [errorLine 6 "boom"] = RegOutcome.returned none ∧
    register_app (some "10.0.0.1") [errorLine 7 "boom"]
      = RegOutcome.raisedPhue 7 "Unknown username" := by
  constructor
  · decide
  · decide

/-- Witness for `register_app_error_types` at a concrete type-101 response. -/
theorem register_app_error_types_witness :
    register_app (some "10.0.0.1") [errorLine 101 "link button not pressed"]
      = RegOutcome.raisedReg 101 linkButtonMsg :=
  (register_app_error_types "10.0.0.1" 101 "link button not pressed" []).1 rfl

/-- Claim C8: a registration handshake against address 10.0.0.1 answered by
a single success entry with username abc sets the session's credential to
abc and leaves the credential-store file holding exactly the one-entry
object mapping 10.0.0.1 to that record, whatever the file held before (the
file is rewritten in full, not merged). -/
theorem register_success_overwrites_file (prev : Option CredFile) :
    fileAfterRegister prev (some "10.0.0.1") [successLine [("username", "abc")]]
        = some [("10.0.0.1", [("username", "abc")])] ∧
      register_app (some "10.0.0.1") [successLine [("username", "abc")]]
        = RegOutcome.returned
            (some ("abc", [("10.0.0.1", [("username", "abc")])])) := by
  have h : register_app (some "10.0.0.1") [successLine [("username", "abc")]]
      = RegOutcome.returned (some ("abc", [("10.0.0.1", [("username", "abc")])])) := by
    decide
  exact ⟨by simp [fileAfterRegister, h], h⟩

/-!
## Light mirror — `Light._set`, `Light.on`, `Light.name` (src/src/phue/light.py)

The mirror's cached fields that the claims touch are `_on`, `_brightness`,
`transitiontime` and `_reset_bri_after_on`.  A write through the bridge is
recorded as an `LWrite` event (parameter, value, and the transitiontime
kwarg attached by `_set`).
-/

/-- A JSON scalar sent in a write payload. -/
inductive PVal where
  | b (x : Bool)
  | i (n : Int)
  | s (x : String)
deriving DecidableEq

/-- The cached fields of a Light mirror that the on/off machinery uses. -/
structure LightState where
  onCache : Option Bool          -- self._on
  brightnessCache : Option Int   -- self._brightness
  transitiontime : Option Int    -- self.transitiontime
  resetBriAfterOn : Option Bool  -- self._reset_bri_after_on
deriving DecidableEq

/-- One call to `bridge.set_light` as issued by `Light._set`. -/
structure LWrite where
  param : String
  value : PVal
  transitiontime : Option Int
deriving DecidableEq

/-- `Light._set(param, value)`: when the mirror's sticky `transitiontime`
is set it is attached as a kwarg, and an off-write (`args[0] == "on" and
args[1] is False`) additionally sets `_reset_bri_after_on = True`; the
forwarded `bridge.set_light` call is the returned write event. -/
def lightSet (st : LightState) (param : String) (v : PVal) :
    LightState × LWrite :=
  match st.transitiontime with
  | none => (st, { param := param, value := v, transitiontime := none })
  | some t =>
    let st1 :=
      if param = "on" ∧ v = PVal.b false then
        { st with resetBriAfterOn := some true }
      else st
    (st1, { param := param, value := v, transitiontime := some t })

/-- The `Light.on` setter.  Before the write: `if self._on and value is
False`, the restore flag becomes `self.transitiontime is not None`.  After
the write: `if self._on is False and value is True` and the flag is `True`,
the brightness setter is re-invoked with the cached brightness when one is
available (one extra `bri` write), otherwise the restore is skipped with a
log message; in both cases the flag is then cleared.  Finally `self._on =
value`.  Returns the new state and the writes issued, in order. -/
def setOn (st : LightState) (value : Bool) : LightState × List LWrite :=
  let s1 :=
    if st.onCache = some true ∧ value = false then
      { st with resetBriAfterOn := some st.transitiontime.isSome }
    else st
  let w1 := lightSet s1 "on" (PVal.b value)
  let s2 := w1.1
  let afterRestore :=
    if s2.onCache = some false ∧ value = true then
      if s2.resetBriAfterOn = some true then
        match s2.brightnessCache with
        | some b =>
          let s3 := { s2 with brightnessCache := some b }
          let w2 := lightSet s3 "bri" (PVal.i b)
          ({ w2.1 with resetBriAfterOn := some false }, [w2.2])
        | none => ({ s2 with resetBriAfterOn := some false }, [])
      else (s2, [])
    else (s2, [])
  ({ afterRestore.1 with onCache := some value }, w1.2 :: afterRestore.2)

/-- Claim C3: on a mirror with a transitiontime configured and a cached
on-state of true, setting `on = False` issues exactly the off-write, and
then setting `on = True` issues the on-write followed by exactly one extra
brightness write carrying the cached brightness (skipped when none is
cached), after which the restore flag is cleared and the cached brightness
is unchanged. -/
theorem light_off_on_restores_brightness (t : Int) (br : Option Int)
    (r : Option Bool) :
    let s0 : LightState :=
      { onCache := some true, brightnessCache := br,
        transitiontime := some t, resetBriAfterOn := r }
    let step1 := setOn s0 false
    let step2 := setOn step1.1 true
    step1.2 = [{ param := "on", value := PVal.b false, transitiontime := some t }] ∧
      step2.2 = { param := "on", value := PVal.b true, transitiontime := some t } ::
          (match br with
           | some b =>
             [{ param := "bri", value := PVal.i b, transitiontime := some t }]
           | none => []) ∧
      step2.1.resetBriAfterOn = some false ∧
      step2.1.brightnessCache = br := by
  cases br with
  | none => simp [setOn, lightSet]
  | some b => simp [setOn, lightSet]

/-!
## Renaming a Light — the `Light.name` setter (src/src/phue/light.py, 69-78)

The setter reads `old_name = self.name` (a fresh fetch from the bridge),
writes the new name through, then updates the Session's name-keyed cache:

    self.bridge.lights_by_name[self.name] = self   # self.name re-fetches!
    del self.bridge.lights_by_name[old_name]

The key inserted is whatever name the bridge reports after the write, not
the value that was assigned.  Lights are identified below by their id; the
deletion raises `KeyError` when the old name is absent, modelled by `none`.
-/

/-- The cache-map update of the `Light.name` setter: `oldName` is the name
fetched before the write, `fetchedName` the name the bridge reports after
the write (the re-fetch in `lights_by_name[self.name] = self`). -/
def lightRenameMapUpdate (selfLight : Nat) (oldName fetchedName : String)
    (byName : List (String × Nat)) : Option (List (String × Nat)) :=
  let m1 := alistSet byName fetchedName selfLight
  if (alistLookup m1 oldName).isSome then some (alistDel m1 oldName) else none

/-- Claim C10: when the bridge-reported name after the rename write equals
the old name (in particular when renaming a light to its current name under
an echoing transport), the setter inserts the mirror under that very key
and then deletes the same key, so the light ends up absent from the
Session's name-keyed mapping altogether. -/
theorem light_rename_echo_removes_light (selfLight : Nat) (name : String)
    (byName : List (String × Nat)) :
    lightRenameMapUpdate selfLight name name byName
        = some (alistDel (alistSet byName name selfLight) name) ∧
      alistLookup (alistDel (alistSet byName name selfLight) name) name = none := by
  have h : (alistLookup (alistSet byName name selfLight) name).isSome = true := by
    rw [alistLookup_set_self]
    rfl
  exact ⟨by simp [lightRenameMapUpdate, h], alistLookup_del_self _ _⟩

/-!
## Multi-id writes — `Bridge.set_light` (src/src/phue2/bridge.py, 497-574)

`set_light` builds one payload, then loops over the normalized id list.
When the parameter (as given, a string or a dict) equals "name", each
element is written verbatim to the resource document root
(`PUT /lights/<id>`). Otherwise a non-digit string element is resolved by
`get_light_id_by_name` (an exact case-sensitive scan over the full
listing); an unresolved element is skipped with a logged warning
(`continue`), and resolved elements are written to
`PUT /lights/<id>/state`.  After each issued request, a response shaped
as a non-empty list whose first element has an "error" key is logged as a
warning and the loop continues; `set_light` returns the full response
list.  The transport is a function from request to response; the bridge
listing used for name resolution is a list of (id, name) pairs in listing
order.
-/

/-- A single element of the id argument: a Python int or str. -/
inductive LightRef where
  | intId (n : Int)
  | strId (s : String)
deriving DecidableEq

/-- Python `str(light)`. -/
def refStr : LightRef → String
  | LightRef.intId n => toString n
  | LightRef.strId s => s

/-- Python `str.isdigit()` (for the ASCII digits that id strings use). -/
def pyIsDigit (s : String) : Bool :=
  !s.data.isEmpty && s.data.all Char.isDigit

/-- `Bridge.get_light_id_by_name`: exact, case-sensitive scan over the
full light listing, first match wins, `None` when nothing matches. -/
def get_light_id_by_name (lights : List (Int × String)) (name : String) :
    Option Int :=
  (lights.find? (fun p => p.2 == name)).map (fun p => p.1)

/-- The `parameter`/`value` arguments of `set_light`: either a single
field name with a value, or a dict sent as-is. -/
inductive Param where
  | field (name : String) (value : PVal)
  | dict (d : List (String × PVal))
deriving DecidableEq

/-- The payload built at the top of `set_light`: the dict as given (or the
one-entry dict `{parameter: value}`), with `transitiontime` merged in
whenever one is supplied.  The parameter is declared `int | None`, so
`int(round(transitiontime))` is the value itself. -/
def mkData (param : Param) (transitiontime : Option Int) :
    List (String × PVal) :=
  let data :=
    match param with
    | Param.dict d => d
    | Param.field n v => [(n, v)]
  match transitiontime with
  | none => data
  | some t => alistSet data "transitiontime" (PVal.i t)

/-- The loop's `parameter == "name"` test on the original argument (a dict
never equals the string "name"). -/
def paramIsName : Param → Bool
  | Param.field n _ => n == "name"
  | Param.dict _ => false

/-- One PUT issued by the loop: to the resource document root
(`/lights/<target>`, name writes) or to the state sub-path
(`/lights/<target>/state`). -/
inductive LightReq where
  | rootPut (target : String) (payload : List (String × PVal))
  | statePut (target : String) (payload : List (String × PVal))
deriving DecidableEq

/-- The payload of an issued request. -/
def LightReq.payload : LightReq → List (String × PVal)
  | LightReq.rootPut _ p => p
  | LightReq.statePut _ p => p

/-- A per-request response, as far as the loop's structural error check
looks at it: `errorResp d` is a non-empty list response whose first
element has an "error" key with description `d`; `okResp` is anything
else. -/
inductive Resp where
  | okResp
  | errorResp (description : String)
deriving DecidableEq

/-- The description extracted by the structural error check, when the
response is error-shaped. -/
def Resp.errDesc : Resp → Option String
  | Resp.okResp => none
  | Resp.errorResp d => some d

/-- What one `set_light` call did: the requests issued in order, the
response list it returns, the names it skipped with a warning, and the
descriptions of error-shaped responses it logged. -/
structure SetLightOut where
  requests : List LightReq
  responses : List Resp
  skipped : List String
  errWarnings : List String
deriving DecidableEq

/-- Resolution of one element on the non-name path: ints and digit strings
are used as-is (stringified for the URL), other strings go through
`get_light_id_by_name`; `none` means the element is skipped. -/
def resolveRef (lights : List (Int × String)) : LightRef → Option String
  | LightRef.intId n => some (toString n)
  | LightRef.strId s =>
    if pyIsDigit s then some s
    else (get_light_id_by_name lights s).map toString

/-- The `for light in light_id_array` loop of `set_light`. -/
def setLightLoop (lights : List (Int × String)) (transport : LightReq → Resp)
    (data : List (String × PVal)) (isName : Bool) :
    List LightRef → SetLightOut
  | [] => { requests := [], responses := [], skipped := [], errWarnings := [] }
  | ref :: rest =>
    if isName then
      let req := LightReq.rootPut (refStr ref) data
      let resp := transport req
      let next := setLightLoop lights transport data isName rest
      { requests := req :: next.requests,
        responses := resp :: next.responses,
        skipped := next.skipped,
        errWarnings := (Resp.errDesc resp).toList ++ next.errWarnings }
    else
      match resolveRef lights ref with
      | none =>
        let next := setLightLoop lights transport data isName rest
        { next with skipped := refStr ref :: next.skipped }
      | some target =>
        let req := LightReq.statePut target data
        let resp := transport req
        let next := setLightLoop lights transport data isName rest
        { requests := req :: next.requests,
          responses := resp :: next.responses,
          skipped := next.skipped,
          errWarnings := (Resp.errDesc resp).toList ++ next.errWarnings }

/-- `Bridge.set_light` on an id list (a single id is first wrapped in a
one-element list by the source). -/
def set_light (lights : List (Int × String)) (transport : LightReq → Resp)
    (ids : List LightRef) (param : Param) (transitiontime : Option Int) :
    SetLightOut :=
  setLightLoop lights transport (mkData param transitiontime)
    (paramIsName param) ids

theorem optToList_append {α : Type} (o : Option α) (L : List α) :
    o.toList ++ L = match o with
                    | none => L
                    | some b => b :: L := by
  cases o <;> rfl

theorem setLightLoop_state_spec (lights : List (Int × String))
    (transport : LightReq → Resp) (data : List (String × PVal))
    (ids : List LightRef) :
    (setLightLoop lights transport data false ids).requests
        = (ids.filterMap (resolveRef lights)).map
            (fun t => LightReq.statePut t data) ∧
      (setLightLoop lights transport data false ids).responses
        = (setLightLoop lights transport data false ids).requests.map transport ∧
      (setLightLoop lights transport data false ids).skipped
        = (ids.filter (fun r => (resolveRef lights r).isNone)).map refStr ∧
      (setLightLoop lights transport data false ids).errWarnings
        = (setLightLoop lights transport data false ids).responses.filterMap
            Resp.errDesc := by
  induction ids with
  | nil => exact ⟨rfl, rfl, rfl, rfl⟩
  | cons ref rest ih =>
    obtain ⟨h1, h2, h3, h4⟩ := ih
    cases hr : resolveRef lights ref with
    | none =>
      refine ⟨?_, ?_, ?_, ?_⟩ <;>
        simp [setLightLoop, hr, h1, h2, h3, h4, List.filterMap_cons,
          List.filter_cons, optToList_append]
    | some target =>
      refine ⟨?_, ?_, ?_, ?_⟩ <;>
        simp [setLightLoop, hr, h1, h2, h3, h4, List.filterMap_cons,
          List.filter_cons, optToList_append]
      rfl

theorem setLightLoop_name_spec (lights : List (Int × String))
    (transport : LightReq → Resp) (data : List (String × PVal))
    (ids : List LightRef) :
    (setLightLoop lights transport data true ids).requests
        = ids.map (fun r => LightReq.rootPut (refStr r) data) ∧
      (setLightLoop lights transport data true ids).responses
        = (setLightLoop lights transport data true ids).requests.map transport ∧
      (setLightLoop lights transport data true ids).skipped = [] ∧
      (setLightLoop lights transport data true ids).errWarnings
        = (setLightLoop lights transport data true ids).responses.filterMap
            Resp.errDesc := by
  induction ids with
  | nil => exact ⟨rfl, rfl, rfl, rfl⟩
  | cons ref rest ih =>
    obtain ⟨h1, h2, h3, h4⟩ := ih
    refine ⟨?_, ?_, ?_, ?_⟩ <;>
      simp [setLightLoop, h1, h2, h3, h4, List.filterMap_cons,
        optToList_append]
    rfl

/-- Claim C5 (amended): for a multi-id `set_light` call whose field is not
"name", one state-write is issued per resolvable id in sequence order; an
element given as a non-numeric name string matching no light is skipped
with a logged warning, aborting nothing; an error-shaped per-element
response is logged as a warning and the loop continues, the full response
list (error entries included) being returned.  When the field is "name",
every element is written verbatim to the document root — no resolution, no
skipping — and error-shaped responses are likewise only logged. -/
theorem set_light_soft_failures (lights : List (Int × String))
    (transport : LightReq → Resp) (ids : List LightRef) (param : Param)
    (transitiontime : Option Int) :
    (paramIsName param = false →
      (set_light lights transport ids param transitiontime).requests
          = (ids.filterMap (resolveRef lights)).map
              (fun t => LightReq.statePut t (mkData param transitiontime)) ∧
        (set_light lights transport ids param transitiontime).responses
          = (set_light lights transport ids param transitiontime).requests.map
              transport ∧
        (set_light lights transport ids param transitiontime).skipped
          = (ids.filter (fun r => (resolveRef lights r).isNone)).map refStr ∧
        (set_light lights transport ids param transitiontime).errWarnings
          = (set_light lights transport ids param
              transitiontime).responses.filterMap Resp.errDesc) ∧
    (paramIsName param = true →
      (set_light lights transport ids param transitiontime).requests
          = ids.map
              (fun r => LightReq.rootPut (refStr r) (mkData param transitiontime)) ∧
        (set_light lights transport ids param transitiontime).skipped = []) := by
  constructor
  · intro h
    unfold set_light
    rw [h]
    exact setLightLoop_state_spec lights transport (mkData param transitiontime) ids
  · intro h
    unfold set_light
    rw [h]
    have := setLightLoop_name_spec lights transport (mkData param transitiontime) ids
    exact ⟨this.1, this.2.2.1⟩

/-- Claim C5 counterexample: with the field being "name", an element given
as a non-numeric name string that matches no light (here against an empty
listing) is not skipped: one write is issued for it, addressed to the
unresolved name verbatim. -/
theorem set_light_name_no_skip_counterexample :
    (set_light [] (fun _ => Resp.okResp) [LightRef.strId "NonexistentName"]
        (Param.field "name" (PVal.s "X")) none).requests
      = [LightReq.rootPut "NonexistentName" [("name", PVal.s "X")]] ∧
    (set_light [] (fun _ => Resp.okResp) [LightRef.strId "NonexistentName"]
        (Param.field "name" (PVal.s "X")) none).skipped = [] := by
  exact ⟨rfl, rfl⟩

/-- Witness for `set_light_soft_failures`: the spec's example — multi-id
set on the list holding id 1 and the unresolvable name, with bri = 200 —
issues exactly one write (for id 1) and records one skip warning. -/
theorem set_light_soft_failures_witness :
    (set_light [(1, "Kitchen")] (fun _ => Resp.okResp)
        [LightRef.intId 1, LightRef.strId "NonexistentName"]
        (Param.field "bri" (PVal.i 200)) none).requests
      = [LightReq.statePut "1" [("bri", PVal.i 200)]] ∧
    (set_light [(1, "Kitchen")] (fun _ => Resp.okResp)
        [LightRef.intId 1, LightRef.strId "NonexistentName"]
        (Param.field "bri" (PVal.i 200)) none).skipped
      = ["NonexistentName"] := by
  have h := (set_light_soft_failures [(1, "Kitchen")] (fun _ => Resp.okResp)
    [LightRef.intId 1, LightRef.strId "NonexistentName"]
    (Param.field "bri" (PVal.i 200)) none).1 (by decide)
  exact ⟨h.1.trans (by decide), h.2.2.1.trans (by decide)⟩

theorem setLightLoop_payload (lights : List (Int × String))
    (transport : LightReq → Resp) (data : List (String × PVal)) (isName : Bool)
    (ids : List LightRef) (req : LightReq)
    (h : req ∈ (setLightLoop lights transport data isName ids).requests) :
    LightReq.payload req = data := by
  induction ids with
  | nil => simp [setLightLoop] at h
  | cons ref rest ih =>
    unfold setLightLoop at h
    by_cases hb : isName
    · rw [if_pos hb] at h
      simp only [List.mem_cons] at h
      rcases h with h | h
      · subst h; rfl
      · exact ih h
    · rw [if_neg hb] at h
      cases hr : resolveRef lights ref with
      | none =>
        rw [hr] at h
        exact ih h
      | some target =>
        rw [hr] at h
        simp only [List.mem_cons] at h
        rcases h with h | h
        · subst h; rfl
        · exact ih h

/-- Claim C6 (amended): a supplied transition time is rounded to an int and
merged into the payload under the key transitiontime for every write the
call issues — including the case where the field being set is "name": the
payload sent to the resource document root carries it too. -/
theorem set_light_transitiontime_merged (lights : List (Int × String))
    (transport : LightReq → Resp) (ids : List LightRef) (param : Param)
    (t : Int) (req : LightReq)
    (h : req ∈ (set_light lights transport ids param (some t)).requests) :
    LightReq.payload req = mkData param (some t) ∧
      alistLookup (LightReq.payload req) "transitiontime" = some (PVal.i t) := by
  have hp := setLightLoop_payload lights transport (mkData param (some t))
    (paramIsName param) ids req h
  refine ⟨hp, ?_⟩
  rw [hp]
  unfold mkData
  exact alistLookup_set_self _ _ _

/-- Claim C6 counterexample: a `set_light` call setting the field "name"
with a transition time of 4 sends a document-root write whose payload does
include the transitiontime key — the claimed exception for renames does
not exist in the code. -/
theorem set_light_name_transitiontime_counterexample :
    (set_light [] (fun _ => Resp.okResp) [LightRef.intId 1]
        (Param.field "name" (PVal.s "New")) (some 4)).requests
      = [LightReq.rootPut "1" [("name", PVal.s "New"), ("transitiontime", PVal.i 4)]] ∧
    alistLookup [("name", PVal.s "New"), ("transitiontime", PVal.i 4)]
        "transitiontime" = some (PVal.i 4) := by
  exact ⟨rfl, rfl⟩

/-- Witness for `set_light_transitiontime_merged` at a concrete rename. -/
theorem set_light_transitiontime_merged_witness :
    LightReq.payload
        (LightReq.rootPut "1" [("name", PVal.s "New"), ("transitiontime", PVal.i 4)])
      = mkData (Param.field "name" (PVal.s "New")) (some 4) ∧
    alistLookup
        (LightReq.payload (LightReq.rootPut "1"
          [("name", PVal.s "New"), ("transitiontime", PVal.i 4)]))
        "transitiontime" = some (PVal.i 4) :=
  set_light_transitiontime_merged [] (fun _ => Resp.okResp) [LightRef.intId 1]
    (Param.field "name" (PVal.s "New")) 4
    (LightReq.rootPut "1" [("name", PVal.s "New"), ("transitiontime", PVal.i 4)])
    (by decide)

/-!
## Sensor state/config mapping writes — `_SensorDataWrapper.__setitem__`
(src/src/phue/sensor.py, 41-71) and `Bridge.set_sensor_content`
(src/src/phue2/bridge.py, 734-781)

`__setitem__` is a no-op when the key is cached with an equal value;
otherwise it updates the local cache first, then calls the bridge update
method (`set_sensor_state` / `set_sensor_config`) with the one-pair
payload inside a `try`/`except` that swallows every exception.  The
bridge method forwards to `set_sensor_content`, which copies the dict,
deletes the key "lastupdated" when present, and issues one PUT to the
state/config sub-path.  Values are any JSON values with decidable
equality, taken as a type parameter.
-/

/-- `Bridge.set_sensor_content` on a dict parameter: `none` models the
early `return False` on an invalid structure name (no request issued);
otherwise the request payload is the copied dict with "lastupdated"
removed. -/
def set_sensor_content {V : Type} (struct : String) (d : List (String × V)) :
    Option (List (String × V)) :=
  if struct ≠ "state" ∧ struct ≠ "config" then none
  else
    some (if (alistLookup d "lastupdated").isSome then alistDel d "lastupdated" else d)

/-- What one `__setitem__` call did: the final cache, the payloads passed
to the bridge update method, the PUT request payloads actually issued
(paired with whether the transport raised on that request), and whether an
exception reached the caller (the `except Exception` in `__setitem__`
swallows transport errors, so this is `false` on every path). -/
structure SensorSetOut (V : Type) where
  cache : List (String × V)
  bridgeCalls : List (List (String × V))
  requests : List (List (String × V) × Bool)
  raisedToCaller : Bool
deriving DecidableEq

/-- `_SensorDataWrapper.__setitem__(key, value)` for a wrapper bound to
`struct` ("state" for `SensorState`, "config" for `SensorConfig`);
`transportRaises` tells whether the underlying PUT raises. -/
def sensorSetItem {V : Type} [DecidableEq V] (struct : String)
    (cache : List (String × V)) (key : String) (v : V)
    (transportRaises : Bool) : SensorSetOut V :=
  if alistLookup cache key = some v then
    { cache := cache, bridgeCalls := [], requests := [], raisedToCaller := false }
  else
    let cache1 := alistSet cache key v
    let payload := [(key, v)]
    match set_sensor_content struct payload with
    | some reqPayload =>
      { cache := cache1, bridgeCalls := [payload],
        requests := [(reqPayload, transportRaises)], raisedToCaller := false }
    | none =>
      { cache := cache1, bridgeCalls := [payload], requests := [],
        raisedToCaller := false }

/-- Claim C7 (amended): a Sensor state/config mapping assignment whose key
is cached with an equal value issues no bridge call at all; otherwise
exactly one bridge call is made with the one-pair payload and exactly one
PUT is issued, whose payload is that single pair — except for the key
"lastupdated", which `set_sensor_content` deletes, so that single PUT
carries an empty payload. -/
theorem sensor_setitem_write_discipline {V : Type} [DecidableEq V]
    (struct : String) (hs : struct = "state" ∨ struct = "config")
    (cache : List (String × V)) (key : String) (v : V) (fails : Bool) :
    (alistLookup cache key = some v →
      sensorSetItem struct cache key v fails
        = { cache := cache, bridgeCalls := [], requests := [],
            raisedToCaller := false }) ∧
    (alistLookup cache key ≠ some v →
      (sensorSetItem struct cache key v fails).bridgeCalls = [[(key, v)]] ∧
        (sensorSetItem struct cache key v fails).requests
          = [((if key = "lastupdated" then [] else [(key, v)]), fails)]) := by
  constructor
  · intro h
    simp [sensorSetItem, h]
  · intro h
    have hcontent : set_sensor_content struct ([(key, v)] : List (String × V))
        = some (if key = "lastupdated" then [] else [(key, v)]) := by
      rcases hs with hs | hs <;> subst hs <;>
        by_cases hk : key = "lastupdated" <;>
          simp [set_sensor_content, alistLookup, alistDel, List.find?, hk]
    simp [sensorSetItem, h, hcontent]

/-- Claim C7 counterexample: assigning a fresh value to the key
"lastupdated" issues exactly one PUT whose payload is empty — not the
claimed single key-value pair, which the request payload does not
contain. -/
theorem sensor_lastupdated_stripped_counterexample :
    (sensorSetItem "state" ([] : List (String × Int)) "lastupdated" 5
          false).requests
        = [([], false)] ∧
      ([] : List (String × Int)) ≠ [("lastupdated", (5 : Int))] := by
  exact ⟨rfl, by decide⟩

/-- Witness for `sensor_setitem_write_discipline`: an equal-value
assignment is a no-op, and a fresh-value assignment issues the one-pair
PUT. -/
theorem sensor_setitem_write_discipline_witness :
    sensorSetItem "state" [("on", (1 : Int))] "on" 1 false
        = { cache := [("on", (1 : Int))], bridgeCalls := [], requests := [],
            raisedToCaller := false } ∧
      (sensorSetItem "state" [("on", (1 : Int))] "temp" 20 false).requests
        = [([("temp", (20 : Int))], false)] := by
  refine ⟨(sensor_setitem_write_discipline "state" (Or.inl rfl)
    [("on", (1 : Int))] "on" 1 false).1 (by decide), ?_⟩
  have h := (sensor_setitem_write_discipline "state" (Or.inl rfl)
    [("on", (1 : Int))] "temp" (20 : Int) false).2 (by decide)
  exact h.2.trans (by decide)

/-- Claim C9: when the bridge write raises on a changed-value Sensor
mapping assignment, the exception is swallowed (nothing reaches the
caller), the local cache keeps the newly assigned value, and a repeated
assignment of that same value is a complete no-op — no bridge call, no
request — even though the bridge never received the first write. -/
theorem sensor_setitem_swallows_bridge_failure {V : Type} [DecidableEq V]
    (struct : String) (cache : List (String × V)) (key : String) (v : V)
    (b2 : Bool) (h : alistLookup cache key ≠ some v) :
    (sensorSetItem struct cache key v true).raisedToCaller = false ∧
      alistLookup (sensorSetItem struct cache key v true).cache key = some v ∧
      sensorSetItem struct (sensorSetItem struct cache key v true).cache key v b2
        = { cache := (sensorSetItem struct cache key v true).cache,
            bridgeCalls := [], requests := [], raisedToCaller := false } := by
  have hcache : (sensorSetItem struct cache key v true).cache
      = alistSet cache key v := by
    unfold sensorSetItem
    rw [if_neg h]
    cases hc : set_sensor_content struct ([(key, v)] : List (String × V)) <;>
      simp [hc]
  have hlook : alistLookup (sensorSetItem struct cache key v true).cache key
      = some v := by
    rw [hcache]
    exact alistLookup_set_self _ _ _
  refine ⟨?_, hlook, ?_⟩
  · unfold sensorSetItem
    rw [if_neg h]
    cases hc : set_sensor_content struct ([(key, v)] : List (String × V)) <;>
      simp [hc]
  · generalize hC : (sensorSetItem struct cache key v true).cache = C at hlook ⊢
    unfold sensorSetItem
    rw [if_pos hlook]

/-- Witness for `sensor_setitem_swallows_bridge_failure` at a concrete
fresh assignment whose bridge write raises. -/
theorem sensor_setitem_swallows_bridge_failure_witness :
    (sensorSetItem "state" ([] : List (String × Int)) "on" 1 true).raisedToCaller
        = false ∧
      alistLookup (sensorSetItem "state" ([] : List (String × Int)) "on" 1
          true).cache "on" = some 1 ∧
      sensorSetItem "state"
          (sensorSetItem "state" ([] : List (String × Int)) "on" 1 true).cache
          "on" 1 false
        = { cache := (sensorSetItem "state" ([] : List (String × Int)) "on" 1
              true).cache,
            bridgeCalls := [], requests := [], raisedToCaller := false } :=
  sensor_setitem_swallows_bridge_failure "state" [] "on" 1 false (by decide)

/-!
## Scenes and `run_scene` — `Scene.__init__` (src/src/phue2/scene.py, 42-56)
and `Bridge.run_scene` (src/src/phue2/bridge.py, 1052-1107)

`Scene.__init__` stores `sorted([int(x) for x in lights])` (or `[]` when
the argument is `None`).  `run_scene` filters the groups and the scenes by
exact name, fails softly (returns false) unless exactly one group
matches, activates the single matching scene unconditionally, and among
several matching scenes activates the first whose light list equals the
group's sorted light-id list.  Activating is one PUT to the group's
action sub-path carrying the scene id and the transition time.
-/

/-- Insertion into a sorted list (ascending). -/
def insertSorted (n : Int) : List Int → List Int
  | [] => [n]
  | m :: ms => if n ≤ m then n :: m :: ms else m :: insertSorted n ms

/-- Python `sorted` on a list of ints (ascending; the sorted permutation
of an integer list is unique). -/
def sortInts (l : List Int) : List Int := l.foldr insertSorted []

/-- The group data `run_scene` reads: `group_id`, the bridge-reported
`name`, and the member light ids (`[x.light_id for x in group.lights]`,
from `Group.lights`). -/
structure GroupM where
  group_id : Int
  name : String
  lights : List Int
deriving DecidableEq

/-- The constructor arguments of `Scene.__init__` that `run_scene` uses
(`lights` is the raw id list as listed by the bridge, `None` allowed). -/
structure SceneRaw where
  sid : String
  name : String
  lights : Option (List Int)
deriving DecidableEq

/-- A constructed Scene value object. -/
structure SceneM where
  scene_id : String
  name : String
  lights : List Int
deriving DecidableEq

/-- `Scene.__init__`: `self.lights = sorted([int(x) for x in lights])` when
lights is given, else `[]`. -/
def sceneOfRaw (r : SceneRaw) : SceneM :=
  { scene_id := r.sid, name := r.name,
    lights := match r.lights with
              | some ls => sortInts ls
              | none => [] }

/-- One `activate_scene` call: `PUT /groups/<id>/action` with the scene id
and the transition time. -/
structure Activation where
  group_id : Int
  scene_id : String
  transitiontime : Int
deriving DecidableEq

/-- The `for scene in scenes` loop at the end of `run_scene`: activate the
first scene whose stored light list equals the group's sorted light-id
list, else fall through to `return False`. -/
def runSceneFind (g : GroupM) (group_lights : List Int) (t : Int) :
    List SceneM → Bool × List Activation
  | [] => (false, [])
  | s :: rest =>
    if group_lights = s.lights then
      (true, [{ group_id := g.group_id, scene_id := s.scene_id,
                transitiontime := t }])
    else runSceneFind g group_lights t rest

/-- `Bridge.run_scene`, returning its boolean result together with the
`activate_scene` calls it performed. -/
def run_scene (groups : List GroupM) (sceneList : List SceneM)
    (group_name scene_name : String) (transition_time : Int) :
    Bool × List Activation :=
  match groups.filter (fun g => g.name == group_name) with
  | [g] =>
    match sceneList.filter (fun s => s.name == scene_name) with
    | [] => (false, [])
    | [s] => (true, [{ group_id := g.group_id, scene_id := s.scene_id,
                       transitiontime := transition_time }])
    | s1 :: s2 :: srest =>
      runSceneFind g (sortInts g.lights) transition_time (s1 :: s2 :: srest)
  | _ => (false, [])

theorem runSceneFind_eq_find (g : GroupM) (gl : List Int) (t : Int)
    (ss : List SceneM) :
    runSceneFind g gl t ss
      = match ss.find? (fun s => gl == s.lights) with
        | some s => (true, [{ group_id := g.group_id, scene_id := s.scene_id,
                              transitiontime := t }])
        | none => (false, []) := by
  induction ss with
  | nil => rfl
  | cons s rest ih =>
    by_cases h : gl = s.lights
    · simp [runSceneFind, List.find?, h]
    · have hb : (gl == s.lights) = false := beq_eq_false_iff_ne.mpr h
      simp [runSceneFind, List.find?, h, ih, hb]

/-- Claim C4: over scenes constructed by `Scene.__init__` from the bridge
listing, `run_scene` returns false without raising unless exactly one
group matches the name; with exactly one matching group and exactly one
matching scene it activates that scene against the group unconditionally
(no membership check) and returns true; with two or more matching scenes
it activates the first in listing order whose sorted light-id list equals
the group's sorted light-id list and returns true, and returns false when
none matches (or when no scene matches the name at all). -/
theorem run_scene_spec (groups : List GroupM) (raws : List SceneRaw)
    (gname sname : String) (t : Int) :
    ((groups.filter (fun g => g.name == gname)).length ≠ 1 →
      run_scene groups (raws.map sceneOfRaw) gname sname t = (false, [])) ∧
    (∀ g s, groups.filter (fun g => g.name == gname) = [g] →
      (raws.map sceneOfRaw).filter (fun s => s.name == sname) = [s] →
      run_scene groups (raws.map sceneOfRaw) gname sname t
        = (true, [{ group_id := g.group_id, scene_id := s.scene_id,
                    transitiontime := t }])) ∧
    (∀ g, groups.filter (fun g => g.name == gname) = [g] →
      2 ≤ ((raws.map sceneOfRaw).filter (fun s => s.name == sname)).length →
      run_scene groups (raws.map sceneOfRaw) gname sname t
        = match ((raws.map sceneOfRaw).filter
              (fun s => s.name == sname)).find?
              (fun s => sortInts g.lights == s.lights) with
          | some s => (true, [{ group_id := g.group_id, scene_id := s.scene_id,
                                transitiontime := t }])
          | none => (false, [])) ∧
    (∀ g, groups.filter (fun g => g.name == gname) = [g] →
      (raws.map sceneOfRaw).filter (fun s => s.name == sname) = [] →
      run_scene groups (raws.map sceneOfRaw) gname sname t = (false, [])) := by
  refine ⟨?_, ?_, ?_, ?_⟩
  · intro h
    unfold run_scene
    rcases hg : groups.filter (fun g => g.name == gname) with _ | ⟨g, _ | ⟨g2, gr⟩⟩
    · rw [hg]
    · exact absurd (by simp [hg]) h
    · rw [hg]
  · intro g s hg hs
    unfold run_scene
    rw [hg, hs]
  · intro g hg hlen
    unfold run_scene
    rw [hg]
    rcases hs : (raws.map sceneOfRaw).filter (fun s => s.name == sname) with
      _ | ⟨s1, _ | ⟨s2, sr⟩⟩
    · rw [hs] at hlen; simp at hlen
    · rw [hs] at hlen; simp at hlen
    · rw [hs] at hlen ⊢
      exact runSceneFind_eq_find g (sortInts g.lights) t (s1 :: s2 :: sr)
  · intro g hg hs
    unfold run_scene
    rw [hg, hs]

/-- Witness for `run_scene_spec`: one matching group, two scenes sharing
the name; the second scene's sorted membership equals the group's, so it
is the one activated. -/
theorem run_scene_spec_witness :
    run_scene [{ group_id := 1, name := "Room", lights := [2, 1] }]
        ([{ sid := "s2", name := "Scene", lights := some [1, 3] },
          { sid := "s1", name := "Scene", lights := some [2, 1] }].map sceneOfRaw)
        "Room" "Scene" 4
      = (true, [{ group_id := 1, scene_id := "s1", transitiontime := 4 }]) := by
  have h := (run_scene_spec
    [{ group_id := 1, name := "Room", lights := [2, 1] }]
    [{ sid := "s2", name := "Scene", lights := some [1, 3] },
     { sid := "s1", name := "Scene", lights := some [2, 1] }]
    "Room" "Scene" 4).2.2.1
    { group_id := 1, name := "Room", lights := [2, 1] }
    (by decide) (by decide)
  exact h.trans (by decide)
